import Mathlib

/-! Verification development for the adaptive location-tracking subsystem of
the umma-na-mobile repository. The definitions below are a shallow embedding
of src/services/LocationService.ts and src/utils/LocationErrorHandling.ts:
module-level mutable state becomes an explicit state record, awaited platform
and network calls become oracle parameters (none / false models a call that
throws), and the AsyncStorage record holding the last known location becomes
an Option field threaded through the functions. Line numbers in the doc
comments refer to the corresponding TypeScript files. -/

namespace LocationService

/-- The three accuracy tiers used by the service (expo-location
Accuracy.Low, Accuracy.Balanced, Accuracy.High). -/
inductive Accuracy
  | low
  | balanced
  | high

deriving instance DecidableEq for Accuracy

/-- Precision/battery order of the tiers: High above Balanced above Low. -/
def Accuracy.rank : Accuracy → Nat
  | .low => 0
  | .balanced => 1
  | .high => 2

/-- Coordinates of a location sample. -/
structure Coords where
  latitude : Int
  longitude : Int

deriving instance DecidableEq for Coords

/-- A location sample as delivered by expo-location: coordinates plus the
acquisition timestamp in milliseconds. -/
structure LocationObject where
  coords : Coords
  timestamp : Nat

deriving instance DecidableEq for LocationObject

/-- FOREGROUND_INTERVAL, LocationService.ts line 102 (2 minutes). -/
def FOREGROUND_INTERVAL : Nat := 2 * 60 * 1000

/-- BACKGROUND_INTERVAL, line 103 (10 minutes). -/
def BACKGROUND_INTERVAL : Nat := 10 * 60 * 1000

/-- AVAILABLE_DRIVER_INTERVAL, line 104 (5 minutes). -/
def AVAILABLE_DRIVER_INTERVAL : Nat := 5 * 60 * 1000

/-- UNAVAILABLE_DRIVER_INTERVAL, line 105 (15 minutes). -/
def UNAVAILABLE_DRIVER_INTERVAL : Nat := 15 * 60 * 1000

/-- NORMAL_ACCURACY = Location.Accuracy.Balanced, line 108. -/
def NORMAL_ACCURACY : Accuracy := .balanced

/-- HIGH_ACCURACY = Location.Accuracy.High, line 109. -/
def HIGH_ACCURACY : Accuracy := .high

/-- LOW_ACCURACY = Location.Accuracy.Low, line 110. -/
def LOW_ACCURACY : Accuracy := .low

/-- AVAILABLE_DISTANCE_FILTER, line 113 (50 meters). -/
def AVAILABLE_DISTANCE_FILTER : Nat := 50

/-- UNAVAILABLE_DISTANCE_FILTER, line 114 (250 meters). -/
def UNAVAILABLE_DISTANCE_FILTER : Nat := 250

/-- MAX_RETRIES, LocationService.ts line 123; the same bound is the default
maxRetries of LocationErrorHandling.ts (DEFAULT_OPTIONS). -/
def MAX_RETRIES : Nat := 3

/-- Tracking parameters derived from driver availability: accuracy tier,
minimum time interval in ms, minimum distance in meters. -/
structure TrackingParameters where
  accuracy : Accuracy
  timeInterval : Nat
  distanceInterval : Nat

deriving instance DecidableEq for TrackingParameters

/-- The parameter derivation performed by startForegroundTracking,
LocationService.ts lines 412-415: each field is a conditional on
isAvailable over the module constants. -/
def foregroundTrackingParameters (isAvailable : Bool) : TrackingParameters :=
  { accuracy := if isAvailable then NORMAL_ACCURACY else LOW_ACCURACY
    timeInterval := if isAvailable then FOREGROUND_INTERVAL else BACKGROUND_INTERVAL
    distanceInterval :=
      if isAvailable then AVAILABLE_DISTANCE_FILTER else UNAVAILABLE_DISTANCE_FILTER }

/-- saveLastKnownLocation, lines 127-136: writes the sample to AsyncStorage
under the lastKnownLocation key. The write is unconditional; a storage
error (writeOk = false) is caught and logged, leaving the store unchanged. -/
def saveLastKnownLocation (writeOk : Bool) (loc : LocationObject)
    (store : Option LocationObject) : Option LocationObject :=
  if writeOk then some loc else store

/-- getLastKnownLocation, lines 139-150: reads the stored sample; a read
error is caught internally and yields null. Modelled for the error-free
read, which every claim here exercises. -/
def getLastKnownLocation (store : Option LocationObject) : Option LocationObject :=
  store

/-- The module-level mutable state of LocationService.ts (lines 117-124)
together with the persisted AsyncStorage record: the foreground
subscription (as a flag), the background task registration, isTracking,
lastUpdateTime, pendingImmediateUpdate, retryCount, the armed 60 second
immediate-update timeout (absolute fire time), and the stored last known
location. -/
structure TrackingState where
  locationSubscription : Bool
  bgTaskRunning : Bool
  isTracking : Bool
  lastUpdateTime : Nat
  pendingImmediateUpdate : Bool
  retryCount : Nat
  locationUpdateTimeout : Option Nat
  store : Option LocationObject

deriving instance DecidableEq for TrackingState

/-- The state at module load: lastUpdateTime = 0, no pending update, no
armed timer, nothing tracked, nothing stored. -/
def initialState : TrackingState :=
  { locationSubscription := false
    bgTaskRunning := false
    isTracking := false
    lastUpdateTime := 0
    pendingImmediateUpdate := false
    retryCount := 0
    locationUpdateTimeout := none
    store := none }

/-- LocationService.stopTracking, lines 515-538: removes the foreground
subscription, stops the background location task, sets isTracking to false
and clears the armed immediate-update timeout. It leaves
pendingImmediateUpdate, retryCount, lastUpdateTime and the store untouched. -/
def stopTracking (s : TrackingState) : TrackingState :=
  { s with
    locationSubscription := false
    bgTaskRunning := false
    isTracking := false
    locationUpdateTimeout := none }

/-- The callback armed by setTimeout in requestImmediateUpdate, lines
619-622: when the 60 second deadline fires it sets pendingImmediateUpdate
to false, whatever the outcome of the underlying acquisition was. -/
def fireLocationUpdateTimeout (s : TrackingState) : TrackingState :=
  { s with pendingImmediateUpdate := false, locationUpdateTimeout := none }

/-- The foreground watch callback of startForegroundTracking, lines
424-439: saves the delivered sample for fallback, transmits it, and on
transmission success records lastUpdateTime = Date.now(); a transmission
error is caught and only logged. -/
def watchCallback (txOk writeOk : Bool) (loc : LocationObject) (now : Nat)
    (s : TrackingState) : TrackingState :=
  let s1 := { s with store := saveLastKnownLocation writeOk loc s.store }
  if txOk then { s1 with lastUpdateTime := now } else s1

/-- LocationService.getLastUpdateTime, lines 730-732. -/
def getLastUpdateTime (s : TrackingState) : Nat :=
  s.lastUpdateTime

/-- Claim C8: foregroundTrackingParameters is a pure function of the
operating mode, fixed by the explicit value table below: the available
mode yields Balanced accuracy with a strictly shorter minimum interval and
a strictly smaller minimum distance than the unavailable mode, which
yields Low accuracy. -/
theorem foregroundParameters_spec :
    foregroundTrackingParameters true =
      { accuracy := .balanced, timeInterval := FOREGROUND_INTERVAL,
        distanceInterval := AVAILABLE_DISTANCE_FILTER } ∧
    foregroundTrackingParameters false =
      { accuracy := .low, timeInterval := BACKGROUND_INTERVAL,
        distanceInterval := UNAVAILABLE_DISTANCE_FILTER } ∧
    (foregroundTrackingParameters true).timeInterval <
      (foregroundTrackingParameters false).timeInterval ∧
    (foregroundTrackingParameters true).distanceInterval <
      (foregroundTrackingParameters false).distanceInterval ∧
    (foregroundTrackingParameters false).accuracy.rank <
      (foregroundTrackingParameters true).accuracy.rank := by
  refine ⟨rfl, rfl, ?_, ?_, ?_⟩ <;> decide

/-- Claim C10: before any successful update getLastUpdateTime returns the
numeric sentinel 0, and the state produced by an update succeeding at
epoch time 0 is indistinguishable from the never-updated state through
this accessor. -/
theorem getLastUpdateTime_zero_sentinel :
    getLastUpdateTime initialState = 0 ∧
    getLastUpdateTime (watchCallback true true ⟨⟨7, 9⟩, 0⟩ 0 initialState) =
      getLastUpdateTime initialState := by
  exact ⟨rfl, rfl⟩

/-- Claim C1, counterexample: with a sample of timestamp 100 stored,
persisting a sample of strictly older timestamp 50 still performs the
store write and replaces the stored sample — saveLastKnownLocation
compares no timestamps. -/
theorem saveLastKnownLocation_overwrites_older :
    saveLastKnownLocation true ⟨⟨3, 4⟩, 50⟩ (some ⟨⟨1, 2⟩, 100⟩) =
      some ⟨⟨3, 4⟩, 50⟩ ∧ (50 : Nat) < 100 := by
  exact ⟨rfl, by decide⟩

/-- Claim C1, amended: every successful store write is an unconditional
overwrite, whatever the stored timestamp (last-writer-wins by call order,
not by timestamp); in particular the foreground watch callback always
leaves the delivered sample in the store. -/
theorem saveLastKnownLocation_unconditional (loc : LocationObject)
    (store : Option LocationObject) (txOk : Bool) (now : Nat)
    (s : TrackingState) :
    saveLastKnownLocation true loc store = some loc ∧
    (watchCallback txOk true loc now s).store = some loc := by
  constructor
  · rfl
  · cases txOk <;> rfl

/-- Oracle inputs for one requestImmediateUpdate invocation: the app state
and platform it observes, the outcome of each expo-location acquisition
and updateDriverLocation call it may make (none respectively false models
the call throwing), the storage-write outcome, the truthiness of the
userId argument, and Date.now(). -/
structure ImmediateEnv where
  appActive : Bool
  isIOS : Bool
  fgAcq : Option LocationObject
  iosAcq : Option LocationObject
  fgTx : Bool
  iosTx : Bool
  fallbackTx : Bool
  catchFallbackTx : Bool
  writeOk : Bool
  userIdNonEmpty : Bool
  now : Nat

/-- Outcome of one requestImmediateUpdate invocation: the returned
boolean, the final module state, how many Location.getCurrentPositionAsync
calls the invocation made, and whether the body of the branch of the
top-level catch handler guarded by retryCount at or above MAX_RETRIES
(lines 629-645) executed. -/
structure ImmediateResult where
  returnValue : Bool
  state : TrackingState
  acqCalls : Nat
  usedCatchFallback : Bool

deriving instance DecidableEq for ImmediateResult

/-- requestImmediateUpdate after both direct attempts, lines 600-650:
re-set the pending flag, opportunistically transmit the cached fallback
sample, arm the 60 second timeout and return true. A throwing fallback
transmission is the only fault of the body that reaches the top-level
catch handler, whose retryCount guard, catch-local fallback transmission
and retryCount increment are modelled here. -/
def afterDirectAttempts (env : ImmediateEnv) (s : TrackingState)
    (acq : Nat) : ImmediateResult :=
  let s2 := { s with pendingImmediateUpdate := true }
  let armed := { s2 with locationUpdateTimeout := some (env.now + 60000) }
  let failed := { s2 with retryCount := s2.retryCount + 1, pendingImmediateUpdate := false }
  match getLastKnownLocation s2.store with
  | some _ =>
    if env.fallbackTx then
      ⟨true, armed, acq, false⟩
    else if MAX_RETRIES ≤ s2.retryCount then
      match getLastKnownLocation s2.store with
      | some _ =>
        if env.catchFallbackTx then
          ⟨true, { s2 with pendingImmediateUpdate := false }, acq, true⟩
        else
          ⟨false, failed, acq, true⟩
      | none =>
        ⟨false, failed, acq, true⟩
    else
      ⟨false, failed, acq, false⟩
  | none =>
    ⟨true, armed, acq, false⟩

/-- requestImmediateUpdate, iOS manual attempt, lines 577-598: on iOS a
second high-accuracy acquisition is tried; a success is saved and, when a
userId was supplied, transmitted — on transmission success the pending
flag is cleared and true returned. Every fault in this block is caught by
its own catch and execution falls through to the fallback path. -/
def afterForeground (env : ImmediateEnv) (s : TrackingState)
    (acq : Nat) : ImmediateResult :=
  if env.isIOS then
    match env.iosAcq with
    | some loc =>
      let s1 := { s with store := saveLastKnownLocation env.writeOk loc s.store }
      if env.userIdNonEmpty then
        if env.iosTx then
          ⟨true, { s1 with pendingImmediateUpdate := false }, acq + 1, false⟩
        else afterDirectAttempts env s1 (acq + 1)
      else afterDirectAttempts env s1 (acq + 1)
    | none => afterDirectAttempts env s (acq + 1)
  else afterDirectAttempts env s acq

/-- requestImmediateUpdate body after the entry assignments, lines
547-650: when the app is active a direct high-accuracy acquisition is
attempted, saved and transmitted; on success lastUpdateTime is recorded,
the pending flag cleared and true returned, and any fault falls through to
the iOS branch. -/
def requestImmediateUpdateBody (env : ImmediateEnv)
    (s0 : TrackingState) : ImmediateResult :=
  if env.appActive then
    match env.fgAcq with
    | some loc =>
      let s1 := { s0 with store := saveLastKnownLocation env.writeOk loc s0.store }
      if env.fgTx then
        ⟨true, { s1 with lastUpdateTime := env.now, pendingImmediateUpdate := false }, 1, false⟩
      else afterForeground env s1 1
    | none => afterForeground env s0 1
  else afterForeground env s0 0

/-- LocationService.requestImmediateUpdate, lines 541-651: the entry
assignments set pendingImmediateUpdate to true and reset retryCount to 0,
then the body runs. -/
def requestImmediateUpdate (env : ImmediateEnv)
    (s : TrackingState) : ImmediateResult :=
  requestImmediateUpdateBody env
    { s with pendingImmediateUpdate := true, retryCount := 0 }

/-- A state in which an immediate update is already pending with its 60
second deadline armed — the shape of state a backgrounded
requestImmediateUpdate call leaves behind. -/
def pendingState : TrackingState :=
  { initialState with
    pendingImmediateUpdate := true
    locationUpdateTimeout := some 60000 }

/-- Claim C2, counterexample: a requestImmediateUpdate call arriving while
pendingImmediateUpdate is already set still performs an acquisition of its
own (one getCurrentPositionAsync call) and resolves through it, instead of
piggybacking on the in-flight request. -/
theorem requestImmediateUpdate_second_call_acquires :
    pendingState.pendingImmediateUpdate = true ∧
    (requestImmediateUpdate
        { appActive := true, isIOS := false,
          fgAcq := some ⟨⟨5, 6⟩, 200⟩, iosAcq := none,
          fgTx := true, iosTx := true, fallbackTx := true,
          catchFallbackTx := true, writeOk := true,
          userIdNonEmpty := true, now := 300 } pendingState).acqCalls = 1 := by
  exact ⟨rfl, rfl⟩

/-- Claim C2, amended: requestImmediateUpdate never inspects
pendingImmediateUpdate — a call made while a request is pending runs
exactly as one made with no request pending (same return value, same
resulting state, same acquisition calls), starting a pipeline of its own
rather than piggybacking on the in-flight one. -/
theorem requestImmediateUpdate_ignores_pending (env : ImmediateEnv)
    (s : TrackingState) :
    requestImmediateUpdate env { s with pendingImmediateUpdate := true } =
      requestImmediateUpdate env { s with pendingImmediateUpdate := false } := by
  rfl

/-- Environment of a backgrounded requestImmediateUpdate call on Android
with an empty store: no direct attempt is possible, so the call arms the
60 second deadline and returns with the pending flag set. -/
def backgroundEnv : ImmediateEnv :=
  { appActive := false, isIOS := false, fgAcq := none, iosAcq := none,
    fgTx := false, iosTx := false, fallbackTx := false,
    catchFallbackTx := false, writeOk := true, userIdNonEmpty := true,
    now := 0 }

/-- Claim C3, counterexample: from the reachable state left by a
backgrounded requestImmediateUpdate call (pending flag set, 60 second
deadline armed), stopTracking cancels the deadline timer while leaving
pendingImmediateUpdate set, so no armed timer remains to clear the flag. -/
theorem stopTracking_strands_pending_flag :
    ((requestImmediateUpdate backgroundEnv initialState).state).pendingImmediateUpdate
        = true ∧
    ((requestImmediateUpdate backgroundEnv initialState).state).locationUpdateTimeout
        = some 60000 ∧
    (stopTracking
        ((requestImmediateUpdate backgroundEnv initialState).state)).pendingImmediateUpdate
        = true ∧
    (stopTracking
        ((requestImmediateUpdate backgroundEnv initialState).state)).locationUpdateTimeout
        = none := by
  exact ⟨rfl, rfl, rfl, rfl⟩

/-- Claim C3, amended: the deadline timer, when it fires, clears
pendingImmediateUpdate unconditionally regardless of the acquisition
outcome; but stopTracking cancels the armed deadline timer while leaving
pendingImmediateUpdate unchanged, so a flag that is set when stopTracking
runs survives with no timer armed to clear it. -/
theorem timeout_clears_but_stopTracking_strands (s : TrackingState) :
    (fireLocationUpdateTimeout s).pendingImmediateUpdate = false ∧
    (stopTracking s).pendingImmediateUpdate = s.pendingImmediateUpdate ∧
    (stopTracking s).locationUpdateTimeout = none := by
  exact ⟨rfl, rfl, rfl⟩

/-- In any call of the post-attempt code with retryCount still 0, the
guarded branch of the top-level catch handler does not execute. -/
theorem afterDirectAttempts_no_catch_fallback (env : ImmediateEnv)
    (s : TrackingState) (acq : Nat) (h : s.retryCount = 0) :
    (afterDirectAttempts env s acq).usedCatchFallback = false := by
  obtain ⟨ls, bg, it, lu, p, rc, lt, st⟩ := s
  simp only [afterDirectAttempts, getLastKnownLocation] at *
  subst h
  cases st with
  | none => rfl
  | some loc =>
    by_cases htx : env.fallbackTx
    · simp [htx]
    · simp [htx, MAX_RETRIES]

/-- Claim C9: in every single invocation of requestImmediateUpdate the
branch of the top-level catch handler guarded by retryCount at or above
MAX_RETRIES never executes: retryCount is reset to 0 at entry and only
incremented after the guard is evaluated, so the guard is always false
when the handler of the invocation runs. -/
theorem requestImmediateUpdate_catch_guard_unreachable (env : ImmediateEnv)
    (s : TrackingState) :
    (requestImmediateUpdate env s).usedCatchFallback = false := by
  unfold requestImmediateUpdate requestImmediateUpdateBody afterForeground
  by_cases ha : env.appActive <;>
    cases hf : env.fgAcq <;>
    by_cases hftx : env.fgTx <;>
    by_cases hi : env.isIOS <;>
    cases hio : env.iosAcq <;>
    by_cases hu : env.userIdNonEmpty <;>
    by_cases hitx : env.iosTx <;>
    simp [ha, hf, hftx, hi, hio, hu, hitx,
      afterDirectAttempts_no_catch_fallback]

/-- Oracle inputs for one getLocationWithFallback invocation: the outcome
of the acquisition attempt at each tier (none models the call throwing),
the outcome of the k-th updateDriverLocation call of the invocation, and
the storage-write outcome. -/
structure FallbackEnv where
  acqHigh : Option LocationObject
  acqBalanced : Option LocationObject
  acqLow : Option LocationObject
  tx : Nat → Bool
  writeOk : Bool

/-- Outcome of one getLocationWithFallback invocation: the settled value
(ok b for a normal return, error for an uncaught rejection escaping the
function), the final store, the samples successfully transmitted, and the
tier of every acquisition call in order. -/
structure PipelineRun where
  result : Except Unit Bool
  store : Option LocationObject
  sent : List LocationObject
  acqAttempts : List Accuracy

deriving instance DecidableEq for Except

deriving instance DecidableEq for PipelineRun

/-- getLocationWithFallback, exhausted-ladder branch, lines 703-719: after
the Low-tier catch the cached sample is read and transmitted; nothing in
the function catches a throwing transmission here, so it escapes. -/
def fallbackBranch (env : FallbackEnv) (store : Option LocationObject)
    (attempts : List Accuracy) (txIdx : Nat) : PipelineRun :=
  match getLastKnownLocation store with
  | some loc =>
    if env.tx txIdx then ⟨.ok true, store, [loc], attempts⟩
    else ⟨.error (), store, [], attempts⟩
  | none => ⟨.ok false, store, [], attempts⟩

/-- getLocationWithFallback, Low-accuracy rung, lines 689-703: a
successful sample is saved and transmitted; a fault from either call is
caught by the rung catch and execution moves to the cached fallback. -/
def tryLow (env : FallbackEnv) (store : Option LocationObject)
    (attempts : List Accuracy) (txIdx : Nat) : PipelineRun :=
  match env.acqLow with
  | some loc =>
    let store1 := saveLastKnownLocation env.writeOk loc store
    if env.tx txIdx then ⟨.ok true, store1, [loc], attempts ++ [.low]⟩
    else fallbackBranch env store1 (attempts ++ [.low]) (txIdx + 1)
  | none => fallbackBranch env store (attempts ++ [.low]) txIdx

/-- getLocationWithFallback, Balanced rung, lines 672-686: as for the Low
rung, with faults caught by the catch that guards the Low rung. -/
def tryBalanced (env : FallbackEnv) (store : Option LocationObject)
    (attempts : List Accuracy) (txIdx : Nat) : PipelineRun :=
  match env.acqBalanced with
  | some loc =>
    let store1 := saveLastKnownLocation env.writeOk loc store
    if env.tx txIdx then ⟨.ok true, store1, [loc], attempts ++ [.balanced]⟩
    else tryLow env store1 (attempts ++ [.balanced]) (txIdx + 1)
  | none => tryLow env store (attempts ++ [.balanced]) txIdx

/-- LocationService.getLocationWithFallback, lines 654-722: High, then
Balanced, then Low, then the cached fallback; each rung saves a successful
sample and transmits it, and a fault from either call is caught by the
catch of the next rung. -/
def getLocationWithFallback (env : FallbackEnv)
    (store : Option LocationObject) : PipelineRun :=
  match env.acqHigh with
  | some loc =>
    let store1 := saveLastKnownLocation env.writeOk loc store
    if env.tx 0 then ⟨.ok true, store1, [loc], [.high]⟩
    else tryBalanced env store1 [.high] 1
  | none => tryBalanced env store [.high] 0

/-- Environment in which every acquisition attempt and every transmission
of one getLocationWithFallback invocation fails. -/
def allFailEnv : FallbackEnv :=
  { acqHigh := none, acqBalanced := none, acqLow := none,
    tx := fun _ => false, writeOk := true }

/-- Claim C6, counterexample: when all three acquisition attempts fail and
a cached sample exists but its fallback transmission fails, the invocation
does not settle to a boolean — the transmission error escapes
getLocationWithFallback uncaught. -/
theorem getLocationWithFallback_uncaught_rejection :
    (getLocationWithFallback allFailEnv (some ⟨⟨1, 2⟩, 100⟩)).result
      = .error () := by
  rfl

/-- Claim C6, amended: when every acquisition attempt of the invocation
fails: with a cached sample present whose transmission succeeds the
invocation returns true with the store unchanged and exactly the cached
sample delivered; with no cached sample it returns false having delivered
nothing; but when the transmission of the cached sample itself fails the
error escapes the invocation uncaught instead of producing a false return
(the store is still unchanged). -/
theorem getLocationWithFallback_exhausted_cases (env : FallbackEnv)
    (store : Option LocationObject) (loc : LocationObject)
    (hh : env.acqHigh = none) (hb : env.acqBalanced = none)
    (hl : env.acqLow = none) :
    (store = some loc → env.tx 0 = true →
      getLocationWithFallback env store =
        ⟨.ok true, store, [loc], [.high, .balanced, .low]⟩) ∧
    (store = some loc → env.tx 0 = false →
      (getLocationWithFallback env store).result = .error () ∧
      (getLocationWithFallback env store).store = store) ∧
    (store = none →
      getLocationWithFallback env store =
        ⟨.ok false, none, [], [.high, .balanced, .low]⟩) := by
  refine ⟨?_, ?_, ?_⟩
  · intro hs ht
    subst hs
    simp [getLocationWithFallback, tryBalanced, tryLow, fallbackBranch,
      getLastKnownLocation, hh, hb, hl, ht]
  · intro hs ht
    subst hs
    simp [getLocationWithFallback, tryBalanced, tryLow, fallbackBranch,
      getLastKnownLocation, hh, hb, hl, ht]
  · intro hs
    subst hs
    simp [getLocationWithFallback, tryBalanced, tryLow, fallbackBranch,
      getLastKnownLocation, hh, hb, hl]

/-- Witness for the exhausted-ladder case analysis, at a concrete
environment whose fallback transmission succeeds and a concrete store. -/
theorem getLocationWithFallback_exhausted_cases_w :
    getLocationWithFallback
        { acqHigh := none, acqBalanced := none, acqLow := none,
          tx := fun _ => true, writeOk := true } (some ⟨⟨1, 2⟩, 100⟩) =
      ⟨.ok true, some ⟨⟨1, 2⟩, 100⟩, [⟨⟨1, 2⟩, 100⟩], [.high, .balanced, .low]⟩ :=
  (getLocationWithFallback_exhausted_cases _ _ ⟨⟨1, 2⟩, 100⟩
    rfl rfl rfl).1 rfl rfl

/-- Environment in which the High acquisition succeeds but its fresh
transmission fails, and the Balanced acquisition and transmission then
succeed. -/
def txFailThenRecoverEnv : FallbackEnv :=
  { acqHigh := some ⟨⟨1, 2⟩, 100⟩, acqBalanced := some ⟨⟨3, 4⟩, 200⟩,
    acqLow := none, tx := fun k => decide (0 < k), writeOk := true }

/-- Claim C7, counterexample: after a successful High acquisition whose
fresh transmission fails, the same invocation of getLocationWithFallback
goes on to acquire again at Balanced and transmit that second sample,
returning true — it neither fails immediately nor stops attempting. -/
theorem getLocationWithFallback_retries_after_tx_failure :
    (getLocationWithFallback txFailThenRecoverEnv none).acqAttempts
        = [.high, .balanced] ∧
    (getLocationWithFallback txFailThenRecoverEnv none).result = .ok true ∧
    (getLocationWithFallback txFailThenRecoverEnv none).sent
        = [⟨⟨3, 4⟩, 200⟩] := by
  exact ⟨rfl, rfl, rfl⟩

/-- Claim C7, amended: in the foreground watch callback a transmission
failure is caught and logged and the invocation ends with no further
attempt and no crash (only the store write remains); in
getLocationWithFallback, however, a transmission failure after a
successful High acquisition is caught by the same catch as an acquisition
failure, and the invocation continues with a Balanced acquisition attempt
inside the same invocation. -/
theorem transmission_failure_behaviour (env : FallbackEnv)
    (loc l : LocationObject) (now : Nat) (s : TrackingState) (wOk : Bool)
    (store : Option LocationObject)
    (hacq : env.acqHigh = some l) (htx : env.tx 0 = false) :
    watchCallback false wOk loc now s =
      { s with store := saveLastKnownLocation wOk loc s.store } ∧
    (getLocationWithFallback env store).acqAttempts.take 2
      = [.high, .balanced] := by
  constructor
  · rfl
  · simp only [getLocationWithFallback, hacq, htx, if_false]
    unfold tryBalanced
    cases env.acqBalanced with
    | some l2 =>
      by_cases h2 : env.tx 1
      · simp [h2]
      · simp only [h2, if_false]
        unfold tryLow
        cases env.acqLow with
        | some l3 =>
          by_cases h3 : env.tx 2
          · simp [h3]
          · simp [h3, fallbackBranch]
            cases getLastKnownLocation (saveLastKnownLocation env.writeOk l3
              (saveLastKnownLocation env.writeOk l2
                (saveLastKnownLocation env.writeOk l store))) with
            | some l4 => by_cases h4 : env.tx 3 <;> simp [h4]
            | none => simp
        | none =>
          simp [fallbackBranch]
          cases getLastKnownLocation (saveLastKnownLocation env.writeOk l2
            (saveLastKnownLocation env.writeOk l store)) with
          | some l4 => by_cases h4 : env.tx 2 <;> simp [h4]
          | none => simp
    | none =>
      unfold tryLow
      cases env.acqLow with
      | some l3 =>
        by_cases h3 : env.tx 1
        · simp [h3]
        · simp [h3, fallbackBranch]
          cases getLastKnownLocation (saveLastKnownLocation env.writeOk l3
            (saveLastKnownLocation env.writeOk l store)) with
          | some l4 => by_cases h4 : env.tx 2 <;> simp [h4]
          | none => simp
      | none =>
        simp [fallbackBranch]
        cases getLastKnownLocation (saveLastKnownLocation env.writeOk l store) with
        | some l4 => by_cases h4 : env.tx 1 <;> simp [h4]
        | none => simp

/-- Witness for the transmission-failure behaviour at the concrete
environment of the counterexample and a concrete callback input. -/
theorem transmission_failure_behaviour_w :
    watchCallback false true ⟨⟨1, 2⟩, 5⟩ 9 initialState =
      { initialState with
        store := saveLastKnownLocation true ⟨⟨1, 2⟩, 5⟩ initialState.store } ∧
    (getLocationWithFallback txFailThenRecoverEnv none).acqAttempts.take 2
      = [.high, .balanced] :=
  transmission_failure_behaviour txFailThenRecoverEnv ⟨⟨1, 2⟩, 5⟩
    ⟨⟨1, 2⟩, 100⟩ 9 initialState true none rfl rfl

/-- Second accuracy statement of the failure handler in
getCurrentPositionWithErrorHandling (LocationErrorHandling.ts lines
409-412): on the final retry a Balanced request drops to Low. -/
def degradeStepLow (retries maxRetries : Nat) (acc1 : Accuracy) : Accuracy :=
  if retries = maxRetries ∧ acc1 = .balanced then .low else acc1

/-- The accuracy degradation applied after a failed attempt
(LocationErrorHandling.ts lines 404-412): two ifs run in order on the same
mutable option — on later retries High drops to Balanced, and on the final
retry Balanced drops to Low. -/
def degradeStep (retries maxRetries : Nat) (acc : Accuracy) : Accuracy :=
  degradeStepLow retries maxRetries
    (if 1 < retries ∧ acc = .high then .balanced else acc)

/-- The trace of one run of the retry loop: the result, the tier of every
acquisition call in order, and the backoff waits in ms applied between
attempts. -/
structure AcqRun where
  result : Option LocationObject
  attempts : List Accuracy
  backoffs : List Nat

deriving instance DecidableEq for AcqRun

/-- The while loop of getCurrentPositionWithErrorHandling
(LocationErrorHandling.ts lines 378-418), with attempt outcomes supplied by
an oracle indexed by attempt number (none models a throwing
getCurrentPositionAsync call). The fuel argument bounds the remaining
iterations; the wrapper passes maxRetries + 1, which the loop never
exhausts since retries grows by one per iteration and the loop gives up
once it exceeds maxRetries. -/
def getPositionLoop (oracle : Nat → Option LocationObject)
    (maxRetries : Nat) (attemptRecovery : Bool) :
    Nat → Nat → Nat → Accuracy → AcqRun
  | 0, _, _, _ => ⟨none, [], []⟩
  | fuel + 1, idx, retries, acc =>
    if retries ≤ maxRetries then
      match oracle idx with
      | some loc => ⟨some loc, [acc], []⟩
      | none =>
        if maxRetries < retries + 1 then ⟨none, [acc], []⟩
        else if attemptRecovery then
          let rest := getPositionLoop oracle maxRetries attemptRecovery fuel
            (idx + 1) (retries + 1) (degradeStep (retries + 1) maxRetries acc)
          ⟨rest.result, acc :: rest.attempts,
            1000 * min 3 (retries + 1) :: rest.backoffs⟩
        else ⟨none, [acc], []⟩
    else ⟨none, [], []⟩

/-- getCurrentPositionWithErrorHandling (LocationErrorHandling.ts lines
355-421): the permission gate (modelled by the hasPermission flag; on
denial the function returns null before any attempt) followed by the
bounded retry loop, starting at retries = 0 with the requested tier. -/
def getCurrentPositionWithErrorHandling (hasPermission : Bool)
    (oracle : Nat → Option LocationObject) (maxRetries : Nat)
    (attemptRecovery : Bool) (initialAccuracy : Accuracy) : AcqRun :=
  if hasPermission then
    getPositionLoop oracle maxRetries attemptRecovery (maxRetries + 1)
      0 0 initialAccuracy
  else ⟨none, [], []⟩

/-- Oracle under which every acquisition attempt fails. -/
def allFailOracle : Nat → Option LocationObject := fun _ => none

/-- Oracle under which the first two attempts fail and every later one
succeeds. -/
def failTwiceOracle : Nat → Option LocationObject := fun i =>
  if i < 2 then none else some ⟨⟨8, 9⟩, 400⟩

/-- Claim C4, counterexample: with maxRetries = 3, recovery enabled and
the requested tier High, two failed attempts leave the third attempt at
Balanced, not Low — the first failure degrades nothing at all, so the
second attempt repeats High. -/
theorem thirdAttemptNotLow :
    (getCurrentPositionWithErrorHandling true failTwiceOracle MAX_RETRIES
        true .high).attempts = [.high, .high, .balanced] ∧
    Accuracy.balanced ≠ .low := by
  exact ⟨by decide, by decide⟩

/-- Claim C4, amended: in getCurrentPositionWithErrorHandling each failure
increments the retry count and applies a bounded backoff of
1000 * min 3 retries ms; the tier degrades High to Balanced only once the
retry count exceeds one and Balanced to Low only when it reaches
maxRetries, so an all-failing run with maxRetries = 3 from High makes four
attempts at tiers High, High, Balanced, Low with backoffs 1000, 2000,
3000 ms — Low is reached only on the fourth attempt, and a run whose first
two attempts fail makes its third attempt at Balanced and succeeds there. -/
theorem degradationLadderTrace :
    getCurrentPositionWithErrorHandling true allFailOracle MAX_RETRIES
        true .high =
      ⟨none, [.high, .high, .balanced, .low], [1000, 2000, 3000]⟩ ∧
    (getCurrentPositionWithErrorHandling true failTwiceOracle MAX_RETRIES
        true .high).result = some ⟨⟨8, 9⟩, 400⟩ := by
  exact ⟨by decide, by decide⟩

/-- Claim C5, counterexample: an all-failing run with maxRetries = 3 makes
four failed acquisition attempts, one more than the configured maximum of
3 — charged against a budget of 3 decremented per failure, the budget goes
negative. -/
theorem fourFailedAttempts :
    (getCurrentPositionWithErrorHandling true allFailOracle MAX_RETRIES
        true .high).result = none ∧
    (getCurrentPositionWithErrorHandling true allFailOracle MAX_RETRIES
        true .high).attempts.length = 4 ∧
    ¬(4 ≤ MAX_RETRIES) := by
  exact ⟨by decide, by decide, by decide⟩

/-- Non-increasing tier sequences, in the order High above Balanced above
Low. -/
def tiersNonIncreasing : List Accuracy → Bool
  | [] => true
  | [_] => true
  | a :: b :: rest =>
    decide (b.rank ≤ a.rank) && tiersNonIncreasing (b :: rest)

/-- Prepending a tier that dominates every element of a non-increasing
sequence keeps it non-increasing. -/
theorem tiersNonIncreasing_cons (a : Accuracy) (l : List Accuracy)
    (hl : tiersNonIncreasing l = true)
    (hb : ∀ x ∈ l, x.rank ≤ a.rank) :
    tiersNonIncreasing (a :: l) = true := by
  cases l with
  | nil => rfl
  | cons b rest =>
    have hba : b.rank ≤ a.rank := hb b (List.mem_cons_self b rest)
    simp [tiersNonIncreasing, hba, hl]

/-- The degradation never moves the tier upward. -/
theorem degradeStep_rank_le (retries maxRetries : Nat) (acc : Accuracy) :
    (degradeStep retries maxRetries acc).rank ≤ acc.rank := by
  unfold degradeStep degradeStepLow
  cases acc <;> split <;> split <;> simp_all [Accuracy.rank]

/-- The loop makes at most maxRetries + 1 - retries further attempts. -/
theorem getPositionLoop_length_le (oracle : Nat → Option LocationObject)
    (maxRetries : Nat) (attemptRecovery : Bool) :
    ∀ fuel idx retries acc,
      (getPositionLoop oracle maxRetries attemptRecovery fuel idx retries
        acc).attempts.length ≤ maxRetries + 1 - retries := by
  intro fuel
  induction fuel with
  | zero =>
    intro idx retries acc
    simp [getPositionLoop]
  | succ n ih =>
    intro idx retries acc
    unfold getPositionLoop
    by_cases hr : retries ≤ maxRetries
    · simp only [hr, if_true]
      cases oracle idx with
      | some loc => simpa using by omega
      | none =>
        by_cases hstop : maxRetries < retries + 1
        · simp only [hstop, if_true]
          simpa using by omega
        · simp only [hstop, if_false]
          cases attemptRecovery with
          | true =>
            simp only [if_true]
            have h := ih (idx + 1) (retries + 1)
              (degradeStep (retries + 1) maxRetries acc)
            simp only [List.length_cons]
            omega
          | false =>
            simp only [Bool.false_eq_true, if_false, List.length_cons,
              List.length_nil]
            omega
    · simp [hr]

/-- Every tier the loop uses is bounded by the tier it starts from, and
the sequence of tiers it uses is non-increasing. -/
theorem getPositionLoop_tiers (oracle : Nat → Option LocationObject)
    (maxRetries : Nat) (attemptRecovery : Bool) :
    ∀ fuel idx retries acc,
      tiersNonIncreasing (getPositionLoop oracle maxRetries attemptRecovery
          fuel idx retries acc).attempts = true ∧
      ∀ x ∈ (getPositionLoop oracle maxRetries attemptRecovery fuel idx
          retries acc).attempts, x.rank ≤ acc.rank := by
  intro fuel
  induction fuel with
  | zero =>
    intro idx retries acc
    simp [getPositionLoop, tiersNonIncreasing]
  | succ n ih =>
    intro idx retries acc
    unfold getPositionLoop
    by_cases hr : retries ≤ maxRetries
    · simp only [hr, if_true]
      cases oracle idx with
      | some loc =>
        constructor
        · rfl
        · intro x hx
          simp at hx
          subst hx
          exact Nat.le_refl _
      | none =>
        by_cases hstop : maxRetries < retries + 1
        · simp only [hstop, if_true]
          constructor
          · rfl
          · intro x hx
            simp at hx
            subst hx
            exact Nat.le_refl _
        · simp only [hstop, if_false]
          cases attemptRecovery with
          | true =>
            simp only [if_true]
            obtain ⟨hchain, hbound⟩ := ih (idx + 1) (retries + 1)
              (degradeStep (retries + 1) maxRetries acc)
            have hstep := degradeStep_rank_le (retries + 1) maxRetries acc
            constructor
            · exact tiersNonIncreasing_cons _ _ hchain
                (fun x hx => Nat.le_trans (hbound x hx) hstep)
            · intro x hx
              rcases List.mem_cons.mp hx with h | h
              · subst h
                exact Nat.le_refl _
              · exact Nat.le_trans (hbound x h) hstep
          | false =>
            simp only [Bool.false_eq_true, if_false]
            constructor
            · rfl
            · intro x hx
              simp at hx
              subst hx
              exact Nat.le_refl _
    · simp [hr, tiersNonIncreasing]

/-- The exhausted-ladder branch adds no acquisition attempt. -/
theorem fallbackBranch_attempts (env : FallbackEnv)
    (store : Option LocationObject) (attempts : List Accuracy)
    (txIdx : Nat) :
    (fallbackBranch env store attempts txIdx).acqAttempts = attempts := by
  unfold fallbackBranch getLastKnownLocation
  cases store with
  | none => rfl
  | some loc => by_cases h : env.tx txIdx <;> simp [h]

/-- The Low rung adds exactly one Low attempt. -/
theorem tryLow_attempts (env : FallbackEnv) (store : Option LocationObject)
    (attempts : List Accuracy) (txIdx : Nat) :
    (tryLow env store attempts txIdx).acqAttempts = attempts ++ [.low] := by
  unfold tryLow
  cases env.acqLow with
  | none => exact fallbackBranch_attempts env store (attempts ++ [.low]) txIdx
  | some loc =>
    by_cases h : env.tx txIdx
    · simp [h]
    · simp [h, fallbackBranch_attempts]

/-- The Balanced rung adds a Balanced attempt, possibly followed by a Low
attempt. -/
theorem tryBalanced_attempts (env : FallbackEnv)
    (store : Option LocationObject) (attempts : List Accuracy)
    (txIdx : Nat) :
    (tryBalanced env store attempts txIdx).acqAttempts
        = attempts ++ [.balanced] ∨
    (tryBalanced env store attempts txIdx).acqAttempts
        = attempts ++ [.balanced, .low] := by
  unfold tryBalanced
  cases env.acqBalanced with
  | none =>
    right
    rw [tryLow_attempts]
    simp
  | some loc =>
    by_cases h : env.tx txIdx
    · left
      simp [h]
    · right
      simp only [h, Bool.false_eq_true, if_false]
      rw [tryLow_attempts]
      simp

/-- The tier list of a getLocationWithFallback invocation is one of the
three prefixes of the full High, Balanced, Low ladder. -/
theorem getLocationWithFallback_attempt_shapes (env : FallbackEnv)
    (store : Option LocationObject) :
    (getLocationWithFallback env store).acqAttempts = [.high] ∨
    (getLocationWithFallback env store).acqAttempts = [.high, .balanced] ∨
    (getLocationWithFallback env store).acqAttempts
      = [.high, .balanced, .low] := by
  unfold getLocationWithFallback
  cases env.acqHigh with
  | none =>
    rcases tryBalanced_attempts env store [.high] 0 with h | h
    · right; left; simpa using h
    · right; right; simpa using h
  | some loc =>
    by_cases h0 : env.tx 0
    · left
      simp [h0]
    · simp only [h0, Bool.false_eq_true, if_false]
      rcases tryBalanced_attempts env
          (saveLastKnownLocation env.writeOk loc store) [.high] 1 with h | h
      · right; left; simpa using h
      · right; right; simpa using h

/-- Claim C5, amended: in every invocation of
getCurrentPositionWithErrorHandling the number of acquisition attempts is
at most maxRetries + 1 (the retry count at the start of an attempt never
exceeds maxRetries) and the tier sequence of the attempts is monotonically
non-increasing; the getLocationWithFallback ladder likewise makes at most
three attempts with a non-increasing tier sequence. -/
theorem retryBudgetAndMonotone (hasPermission : Bool)
    (oracle : Nat → Option LocationObject) (maxRetries : Nat)
    (attemptRecovery : Bool) (acc : Accuracy) (env : FallbackEnv)
    (store : Option LocationObject) :
    (getCurrentPositionWithErrorHandling hasPermission oracle maxRetries
        attemptRecovery acc).attempts.length ≤ maxRetries + 1 ∧
    tiersNonIncreasing (getCurrentPositionWithErrorHandling hasPermission
        oracle maxRetries attemptRecovery acc).attempts = true ∧
    (getLocationWithFallback env store).acqAttempts.length ≤ 3 ∧
    tiersNonIncreasing (getLocationWithFallback env store).acqAttempts
      = true := by
  refine ⟨?_, ?_, ?_, ?_⟩
  · unfold getCurrentPositionWithErrorHandling
    cases hasPermission with
    | true =>
      have h := getPositionLoop_length_le oracle maxRetries attemptRecovery
        (maxRetries + 1) 0 0 acc
      simpa using h
    | false => simp
  · unfold getCurrentPositionWithErrorHandling
    cases hasPermission with
    | true =>
      exact (getPositionLoop_tiers oracle maxRetries attemptRecovery
        (maxRetries + 1) 0 0 acc).1
    | false => simp [tiersNonIncreasing]
  · rcases getLocationWithFallback_attempt_shapes env store with h | h | h <;>
      rw [h] <;> decide
  · rcases getLocationWithFallback_attempt_shapes env store with h | h | h <;>
      rw [h] <;> decide

end LocationService
